import Mathlib

/-!
Shallow embedding of the MCP server connection/session engine
(internal/server/server.go, i.e. the MCPServer and Connection code, and
pkg/mcp/types.go of kringen/mcp-demo).

Modelling decisions, all taken from the source:
- JSON-RPC ids are opaque client-chosen values; they are modelled as Nat.
  `Message.ID` is `interface{}` (nil or a value), modelled as `Option Nat`.
- A decoded `params` value is opaque JSON, observed by the engine only
  through `json.Marshal` / `json.Unmarshal` into one of the three request
  structs; it is modelled observationally as a record of the three
  unmarshal outcomes (`Except String` mirrors `error`).
- Providers are the two Go interfaces; `ctx` never carries information in
  the source handlers (always `context.Background()`), so it is dropped.
- Handlers additionally return a trace of provider-method invocations
  (`ProviderEvent`), one event per `provider.ListTools` / `CallTool` /
  `ListResources` / `ReadResource` call in the source, indexed by the
  position of the provider in registration order. This is the only
  instrumentation added to the source logic.
- `handleWebSocket`s read loop is modelled by `Connection.serveLoop` over a
  list of frames, each frame either decoding to a `Message` or failing
  (`conn.ReadJSON` error), in which case the loop breaks and the deferred
  close runs. Writes are assumed to succeed.
-/

/-- Protocol version constant from pkg/mcp/types.go. -/
def ProtocolVersion : String := "2024-11-05"

/-- Method name constants from pkg/mcp/types.go. -/
def MethodInitialize : String := "initialize"

def MethodInitialized : String := "initialized"

def MethodListTools : String := "tools/list"

def MethodCallTool : String := "tools/call"

def MethodListResources : String := "resources/list"

def MethodReadResource : String := "resources/read"

/-- JSON-RPC error code constants from pkg/mcp/types.go. -/
def ErrorCodeParseError : Int := -32700

def ErrorCodeInvalidRequest : Int := -32600

def ErrorCodeMethodNotFound : Int := -32601

def ErrorCodeInvalidParams : Int := -32602

def ErrorCodeInternalError : Int := -32603

/-- Opaque client-chosen JSON-RPC id value. -/
abbrev MsgId := Nat

/-- mcp.Error: {code, message, data}. `data` is only ever nil or an error
string in the server, so it is modelled as `Option String`. -/
structure Error where
  code : Int
  message : String
  data : Option String
  deriving DecidableEq

/-- mcp.Content. -/
structure Content where
  type : String
  text : String
  data : String
  deriving DecidableEq

/-- mcp.Tool; the inputSchema is an opaque JSON object passed through
verbatim, modelled as an association list. -/
structure Tool where
  name : String
  description : String
  inputSchema : List (String × String)
  deriving DecidableEq

/-- mcp.ToolCallRequest. The Go zero value has Name = "" and a nil map. -/
structure ToolCallRequest where
  name : String
  arguments : Option (List (String × String))
  deriving DecidableEq

/-- mcp.ToolCallResponse. -/
structure ToolCallResponse where
  content : List Content
  isError : Bool
  deriving DecidableEq

/-- mcp.Resource (the meta map, unused by the engine, is omitted). -/
structure Resource where
  uri : String
  name : String
  description : String
  mimeType : String
  deriving DecidableEq

/-- mcp.ResourceReadRequest. -/
structure ResourceReadRequest where
  uri : String
  deriving DecidableEq

/-- mcp.ResourceContent. -/
structure ResourceContent where
  uri : String
  mimeType : String
  text : String
  blob : String
  deriving DecidableEq

/-- mcp.ResourceReadResponse. -/
structure ResourceReadResponse where
  contents : List ResourceContent
  deriving DecidableEq

/-- mcp.ClientInfo. -/
structure ClientInfo where
  name : String
  version : String
  deriving DecidableEq

/-- mcp.ServerInfo. -/
structure ServerInfo where
  name : String
  version : String
  deriving DecidableEq

/-- mcp.ToolsCapability. -/
structure ToolsCapability where
  listChanged : Bool
  deriving DecidableEq

/-- mcp.ResourcesCapability. -/
structure ResourcesCapability where
  subscribe : Bool
  listChanged : Bool
  deriving DecidableEq

/-- mcp.ServerCapabilities (logging/prompts/experimental, never set by the
server, are omitted). -/
structure ServerCapabilities where
  resources : Option ResourcesCapability
  tools : Option ToolsCapability
  deriving DecidableEq

/-- mcp.InitializeRequest (capabilities and meta, never read by the engine
after unmarshalling, are omitted). -/
structure InitializeRequest where
  protocolVersion : String
  clientInfo : ClientInfo
  deriving DecidableEq

/-- mcp.InitializeResponse. -/
structure InitializeResponse where
  protocolVersion : String
  capabilities : ServerCapabilities
  serverInfo : ServerInfo
  deriving DecidableEq

/-- The result values the server actually attaches to successful
responses: an InitializeResponse, a {tools: [...]} map, a
ToolCallResponse, a {resources: [...]} map, or a ResourceReadResponse. -/
inductive ResultVal where
  | initializeResult (r : InitializeResponse)
  | toolList (tools : List Tool)
  | toolCall (r : ToolCallResponse)
  | resourceList (rs : List Resource)
  | resourceRead (r : ResourceReadResponse)
  deriving DecidableEq

/-- mcp.Response. -/
structure Response where
  jsonrpc : String
  id : Option MsgId
  result : Option ResultVal
  error : Option Error
  deriving DecidableEq

/-- mcp.NewResponse. -/
def NewResponse (id : Option MsgId) (result : ResultVal) : Response :=
  { jsonrpc := "2.0", id := id, result := some result, error := none }

/-- mcp.NewErrorResponse. -/
def NewErrorResponse (id : Option MsgId) (code : Int) (message : String)
    (data : Option String) : Response :=
  { jsonrpc := "2.0", id := id, result := none,
    error := some { code := code, message := message, data := data } }

/-- An opaque decoded `params` JSON value, observed by the engine only via
json.Unmarshal into one of the three request structs; modelled as the
record of those three unmarshal outcomes. For example the JSON value `5`
is the record with all three outcomes an unmarshal type error, while a
JSON object yields `Except.ok` with absent fields at their zero values. -/
structure ParamsVal where
  asInitialize : Except String InitializeRequest
  asToolCall : Except String ToolCallRequest
  asResourceRead : Except String ResourceReadRequest

/-- mcp.Message: the inbound wire envelope. Method = "" models an absent
method; ID = none models a null/absent id. -/
structure Message where
  jsonrpc : String
  id : Option MsgId
  method : String
  params : Option ParamsVal

/-- The Go pattern `var req T; if message.Params != nil { unmarshal }`:
absent params leave the request struct at its zero value, present params
are unmarshalled and may fail. -/
def decodeParams {α : Type} (zero : α) (f : ParamsVal → Except String α) :
    Option ParamsVal → Except String α
  | none => Except.ok zero
  | some pv => f pv

/-- Go zero value of mcp.ToolCallRequest. -/
def emptyToolCallRequest : ToolCallRequest := { name := "", arguments := none }

/-- Go zero value of mcp.ResourceReadRequest. -/
def emptyResourceReadRequest : ResourceReadRequest := { uri := "" }

/-- Go zero value of mcp.InitializeRequest. -/
def emptyInitializeRequest : InitializeRequest :=
  { protocolVersion := "", clientInfo := { name := "", version := "" } }

/-- mcp.ToolProvider interface (the context argument, always
context.Background() at the call sites, is dropped). -/
structure ToolProvider where
  ListTools : Except String (List Tool)
  CallTool : ToolCallRequest → Except String ToolCallResponse

/-- mcp.ResourceProvider interface. -/
structure ResourceProvider where
  ListResources : Except String (List Resource)
  ReadResource : String → Except String ResourceReadResponse

/-- One Connection together with the registry state of its MCPServer that
the handlers consult: the per-connection `initialized` flag and the two
provider slices (append-only, frozen during serving). -/
structure Connection where
  initialized : Bool
  toolProviders : List ToolProvider
  resourceProviders : List ResourceProvider

/-- Trace of provider-method invocations performed while handling one
message; `i` is the index of the provider in registration order. -/
inductive ProviderEvent where
  | listTools (i : Nat)
  | callTool (i : Nat)
  | listResources (i : Nat)
  | readResource (i : Nat)
  deriving DecidableEq

/-- Whether a provider advertises a tool named `n`: its ListTools succeeds
and the listing contains the name (the membership test of the inner loop
of handleCallTool). -/
def ToolProvider.hasTool (p : ToolProvider) (n : String) : Bool :=
  match p.ListTools with
  | Except.error _ => false
  | Except.ok ts => ts.any (fun t => t.name == n)

/-- Whether ListTools succeeds for a provider. -/
def ToolProvider.listOk (p : ToolProvider) : Bool :=
  match p.ListTools with
  | Except.error _ => false
  | Except.ok _ => true

/-- The listing of a provider whose ListTools succeeds ([] on failure;
only used under a listOk hypothesis). -/
def ToolProvider.okTools (p : ToolProvider) : List Tool :=
  match p.ListTools with
  | Except.error _ => []
  | Except.ok ts => ts

/-- The fixed InitializeResponse literal built by handleInitialize. -/
def serverInitializeResponse : InitializeResponse :=
  { protocolVersion := ProtocolVersion,
    capabilities :=
      { resources := some { subscribe := false, listChanged := false },
        tools := some { listChanged := false } },
    serverInfo := { name := "MCP Server Go", version := "1.0.0" } }

/-- Connection.handleInitialize: decode params (absent params leave the
zero value), answer InvalidParams on unmarshal failure, otherwise return
the fixed InitializeResponse. Never touches the initialized flag. -/
def Connection.handleInitialize (c : Connection) (m : Message) : Response :=
  match decodeParams emptyInitializeRequest ParamsVal.asInitialize m.params with
  | Except.error e =>
      NewErrorResponse m.id ErrorCodeInvalidParams "Invalid initialize parameters" (some e)
  | Except.ok _ => NewResponse m.id (ResultVal.initializeResult serverInitializeResponse)

/-- The aggregation loop of handleListTools: call ListTools on each
provider in order, concatenating; the first failure aborts the loop with
that error. `i` is the registration index of the head provider. -/
def listToolsLoop : List ToolProvider → Nat →
    Except String (List Tool) × List ProviderEvent
  | [], _ => (Except.ok [], [])
  | p :: rest, i =>
    match p.ListTools with
    | Except.error e => (Except.error e, [ProviderEvent.listTools i])
    | Except.ok ts =>
      match (listToolsLoop rest (i + 1)).1 with
      | Except.error e =>
          (Except.error e, ProviderEvent.listTools i :: (listToolsLoop rest (i + 1)).2)
      | Except.ok acc =>
          (Except.ok (ts ++ acc), ProviderEvent.listTools i :: (listToolsLoop rest (i + 1)).2)

/-- Connection.handleListTools. -/
def Connection.handleListTools (c : Connection) (m : Message) :
    Response × List ProviderEvent :=
  if !c.initialized then
    (NewErrorResponse m.id ErrorCodeInvalidRequest "Client not initialized" none, [])
  else
    match (listToolsLoop c.toolProviders 0).1 with
    | Except.error e =>
        (NewErrorResponse m.id ErrorCodeInternalError "Failed to list tools" (some e),
         (listToolsLoop c.toolProviders 0).2)
    | Except.ok allTools =>
        (NewResponse m.id (ResultVal.toolList allTools), (listToolsLoop c.toolProviders 0).2)

/-- The lookup loop of handleCallTool: for each provider in registration
order, call ListTools (a failure skips the provider); on the first
provider whose listing contains the requested name, call its CallTool and
return that outcome without consulting further providers. `none` means no
listing contained the name. -/
def callToolLoop (req : ToolCallRequest) : List ToolProvider → Nat →
    Option (Except String ToolCallResponse) × List ProviderEvent
  | [], _ => (none, [])
  | p :: rest, i =>
    match p.ListTools with
    | Except.error _ =>
      ((callToolLoop req rest (i + 1)).1,
       ProviderEvent.listTools i :: (callToolLoop req rest (i + 1)).2)
    | Except.ok ts =>
      if ts.any (fun t => t.name == req.name) then
        (some (p.CallTool req), [ProviderEvent.listTools i, ProviderEvent.callTool i])
      else
        ((callToolLoop req rest (i + 1)).1,
         ProviderEvent.listTools i :: (callToolLoop req rest (i + 1)).2)

/-- Connection.handleCallTool. -/
def Connection.handleCallTool (c : Connection) (m : Message) :
    Response × List ProviderEvent :=
  if !c.initialized then
    (NewErrorResponse m.id ErrorCodeInvalidRequest "Client not initialized" none, [])
  else
    match decodeParams emptyToolCallRequest ParamsVal.asToolCall m.params with
    | Except.error e =>
        (NewErrorResponse m.id ErrorCodeInvalidParams "Invalid tool call parameters" (some e), [])
    | Except.ok req =>
      match (callToolLoop req c.toolProviders 0).1 with
      | some (Except.error e) =>
          (NewErrorResponse m.id ErrorCodeInternalError "Tool execution failed" (some e),
           (callToolLoop req c.toolProviders 0).2)
      | some (Except.ok resp) =>
          (NewResponse m.id (ResultVal.toolCall resp), (callToolLoop req c.toolProviders 0).2)
      | none =>
          (NewErrorResponse m.id ErrorCodeMethodNotFound ("Tool not found: " ++ req.name) none,
           (callToolLoop req c.toolProviders 0).2)

/-- The aggregation loop of handleListResources (mirrors listToolsLoop). -/
def listResourcesLoop : List ResourceProvider → Nat →
    Except String (List Resource) × List ProviderEvent
  | [], _ => (Except.ok [], [])
  | p :: rest, i =>
    match p.ListResources with
    | Except.error e => (Except.error e, [ProviderEvent.listResources i])
    | Except.ok rs =>
      match (listResourcesLoop rest (i + 1)).1 with
      | Except.error e =>
          (Except.error e, ProviderEvent.listResources i :: (listResourcesLoop rest (i + 1)).2)
      | Except.ok acc =>
          (Except.ok (rs ++ acc), ProviderEvent.listResources i :: (listResourcesLoop rest (i + 1)).2)

/-- Connection.handleListResources. -/
def Connection.handleListResources (c : Connection) (m : Message) :
    Response × List ProviderEvent :=
  if !c.initialized then
    (NewErrorResponse m.id ErrorCodeInvalidRequest "Client not initialized" none, [])
  else
    match (listResourcesLoop c.resourceProviders 0).1 with
    | Except.error e =>
        (NewErrorResponse m.id ErrorCodeInternalError "Failed to list resources" (some e),
         (listResourcesLoop c.resourceProviders 0).2)
    | Except.ok allResources =>
        (NewResponse m.id (ResultVal.resourceList allResources),
         (listResourcesLoop c.resourceProviders 0).2)

/-- The lookup loop of handleReadResource (mirrors callToolLoop, matching
by URI). -/
def readResourceLoop (uri : String) : List ResourceProvider → Nat →
    Option (Except String ResourceReadResponse) × List ProviderEvent
  | [], _ => (none, [])
  | p :: rest, i =>
    match p.ListResources with
    | Except.error _ =>
      ((readResourceLoop uri rest (i + 1)).1,
       ProviderEvent.listResources i :: (readResourceLoop uri rest (i + 1)).2)
    | Except.ok rs =>
      if rs.any (fun r => r.uri == uri) then
        (some (p.ReadResource uri), [ProviderEvent.listResources i, ProviderEvent.readResource i])
      else
        ((readResourceLoop uri rest (i + 1)).1,
         ProviderEvent.listResources i :: (readResourceLoop uri rest (i + 1)).2)

/-- Connection.handleReadResource. -/
def Connection.handleReadResource (c : Connection) (m : Message) :
    Response × List ProviderEvent :=
  if !c.initialized then
    (NewErrorResponse m.id ErrorCodeInvalidRequest "Client not initialized" none, [])
  else
    match decodeParams emptyResourceReadRequest ParamsVal.asResourceRead m.params with
    | Except.error e =>
        (NewErrorResponse m.id ErrorCodeInvalidParams "Invalid resource read parameters" (some e), [])
    | Except.ok req =>
      match (readResourceLoop req.uri c.resourceProviders 0).1 with
      | some (Except.error e) =>
          (NewErrorResponse m.id ErrorCodeInternalError "Resource read failed" (some e),
           (readResourceLoop req.uri c.resourceProviders 0).2)
      | some (Except.ok resp) =>
          (NewResponse m.id (ResultVal.resourceRead resp),
           (readResourceLoop req.uri c.resourceProviders 0).2)
      | none =>
          (NewErrorResponse m.id ErrorCodeMethodNotFound ("Resource not found: " ++ req.uri) none,
           (readResourceLoop req.uri c.resourceProviders 0).2)

/-- Connection.handleRequest: the method switch. -/
def Connection.handleRequest (c : Connection) (m : Message) :
    Response × List ProviderEvent :=
  if m.method = MethodInitialize then (c.handleInitialize m, [])
  else if m.method = MethodListTools then c.handleListTools m
  else if m.method = MethodCallTool then c.handleCallTool m
  else if m.method = MethodListResources then c.handleListResources m
  else if m.method = MethodReadResource then c.handleReadResource m
  else
    (NewErrorResponse m.id ErrorCodeMethodNotFound ("Method not found: " ++ m.method) none, [])

/-- Connection.handleNotification: only the `initialized` notification has
an effect (it sets the initialized flag); everything else is logged and
dropped. -/
def Connection.handleNotification (c : Connection) (m : Message) : Connection :=
  if m.method = MethodInitialized then { c with initialized := true } else c

/-- Connection.handleMessage: classify the envelope. Non-empty method and
non-nil id is a request (answered, state untouched); non-empty method and
nil id is a notification (no response); anything else gets an
InvalidRequest error echoing the id. Returns (response if any, updated
connection, provider-call trace). -/
def Connection.handleMessage (c : Connection) (m : Message) :
    Option Response × Connection × List ProviderEvent :=
  if m.method ≠ "" ∧ m.id ≠ none then
    (some (c.handleRequest m).1, c, (c.handleRequest m).2)
  else if m.method ≠ "" ∧ m.id = none then
    (none, c.handleNotification m, [])
  else
    (some (NewErrorResponse m.id ErrorCodeInvalidRequest "Invalid message format" none), c, [])

/-- One inbound frame on the websocket: either it decodes to a Message or
conn.ReadJSON fails. -/
inductive Frame where
  | ok (m : Message)
  | bad

/-- The read loop of MCPServer.handleWebSocket over a finite frame
sequence: decode, handle, write any response, in order; a decode failure
breaks the loop (the deferred close then closes the connection, as it
also does when input ends). Returns the responses written, in order, and
the final connection state. -/
def Connection.serveLoop (c : Connection) : List Frame → List Response × Connection
  | [] => ([], c)
  | Frame.bad :: _ => ([], c)
  | Frame.ok m :: rest =>
    ((c.handleMessage m).1.toList ++ (((c.handleMessage m).2.1).serveLoop rest).1,
     (((c.handleMessage m).2.1).serveLoop rest).2)

/-! ## Concrete sample data (used by witnesses and counterexamples) -/

/-- A sample tool descriptor. -/
def toolAdd : Tool := { name := "add", description := "adds two numbers", inputSchema := [] }

/-- A sample tool descriptor named "ping", listed by two providers below. -/
def toolPing : Tool := { name := "ping", description := "ping", inputSchema := [] }

/-- A provider advertising "add" whose CallTool succeeds. -/
def provMath : ToolProvider :=
  { ListTools := Except.ok [toolAdd],
    CallTool := fun _ =>
      Except.ok { content := [{ type := "text", text := "8", data := "" }], isError := false } }

/-- A provider whose ListTools fails. -/
def provBadList : ToolProvider :=
  { ListTools := Except.error "database unavailable",
    CallTool := fun _ => Except.error "database unavailable" }

/-- A provider advertising "ping" whose CallTool fails. -/
def provPingFail : ToolProvider :=
  { ListTools := Except.ok [toolPing],
    CallTool := fun _ => Except.error "ping exploded" }

/-- A second provider advertising "ping", with a distinguishable answer. -/
def provPingB : ToolProvider :=
  { ListTools := Except.ok [toolPing],
    CallTool := fun _ =>
      Except.ok { content := [{ type := "text", text := "from B", data := "" }], isError := false } }

/-- A fresh connection (initialized = false) with the given tool providers. -/
def connAwait (tps : List ToolProvider) : Connection :=
  { initialized := false, toolProviders := tps, resourceProviders := [] }

/-- A connection past the handshake (initialized = true). -/
def connReady (tps : List ToolProvider) : Connection :=
  { initialized := true, toolProviders := tps, resourceProviders := [] }

/-- A request envelope with the given id, method and params. -/
def mkRequest (i : Nat) (method : String) (params : Option ParamsVal) : Message :=
  { jsonrpc := "2.0", id := some i, method := method, params := params }

/-- The params value decoded from the JSON object {"name": n}: unmarshals
into each request struct with absent fields at their zero values. -/
def paramsToolCall (n : String) : ParamsVal :=
  { asInitialize := Except.ok emptyInitializeRequest,
    asToolCall := Except.ok { name := n, arguments := none },
    asResourceRead := Except.ok emptyResourceReadRequest }

/-- The params value decoded from the JSON number 5: json.Unmarshal into
any of the three request structs fails with a type error. -/
def paramsNonObject : ParamsVal :=
  { asInitialize := Except.error "json: cannot unmarshal number into Go value of type mcp.InitializeRequest",
    asToolCall := Except.error "json: cannot unmarshal number into Go value of type mcp.ToolCallRequest",
    asResourceRead := Except.error "json: cannot unmarshal number into Go value of type mcp.ResourceReadRequest" }

/-! ## Helper lemmas -/

/-- Unfolding the serve loop on a frame that decodes. -/
lemma serveLoop_cons_ok (c : Connection) (m : Message) (rest : List Frame) :
    c.serveLoop (Frame.ok m :: rest) =
      ((c.handleMessage m).1.toList ++ (((c.handleMessage m).2.1).serveLoop rest).1,
       (((c.handleMessage m).2.1).serveLoop rest).2) := rfl

/-- A notification envelope (no id) with the given method. -/
def mkNotification (method : String) : Message :=
  { jsonrpc := "2.0", id := none, method := method, params := none }

/-! ## Claims -/

/-- C1: while the initialized flag is false (AwaitingInitialize), any
Request whose method is tools/list, tools/call, resources/list or
resources/read is answered with error code -32600 (InvalidRequest),
message "Client not initialized", the session state is unchanged, and the
provider-call trace is empty: no tool or resource provider list or invoke
method is called. -/
theorem c1_awaitingInitialize_rejects_without_provider_calls
    (c : Connection) (m : Message)
    (hinit : c.initialized = false)
    (hm : m.method = MethodListTools ∨ m.method = MethodCallTool ∨
      m.method = MethodListResources ∨ m.method = MethodReadResource)
    (hid : m.id ≠ none) :
    c.handleMessage m =
      (some (NewErrorResponse m.id ErrorCodeInvalidRequest "Client not initialized" none),
       c, []) := by
  rcases hm with h | h | h | h <;>
    simp [Connection.handleMessage, Connection.handleRequest, Connection.handleListTools,
      Connection.handleCallTool, Connection.handleListResources, Connection.handleReadResource,
      h, hid, hinit, MethodInitialize, MethodListTools, MethodCallTool, MethodListResources,
      MethodReadResource]

/-- C1 witness: a concrete uninitialized session rejecting tools/list. -/
theorem c1_witness :
    (connAwait [provMath]).handleMessage (mkRequest 2 MethodListTools none) =
      (some (NewErrorResponse (some 2) ErrorCodeInvalidRequest "Client not initialized" none),
       connAwait [provMath], []) :=
  c1_awaitingInitialize_rejects_without_provider_calls (connAwait [provMath])
    (mkRequest 2 MethodListTools none) rfl (Or.inl rfl) (by decide)

/-- C6: the `initialized` notification sets the initialized flag (so an
AwaitingInitialize session becomes Ready), produces no response, is a
no-op when the session is already Ready, and handling it twice equals
handling it once. -/
theorem c6_initialized_notification_idempotent (c : Connection) (m : Message)
    (hm : m.method = MethodInitialized) (hid : m.id = none) :
    c.handleMessage m = (none, { c with initialized := true }, []) ∧
    Connection.handleMessage { c with initialized := true } m =
      (none, { c with initialized := true }, []) := by
  constructor <;>
    simp [Connection.handleMessage, Connection.handleNotification, hm, hid, MethodInitialized]

/-- C6 witness: a concrete fresh session handling the `initialized`
notification. -/
theorem c6_witness :
    (connAwait []).handleMessage (mkNotification MethodInitialized) =
      (none, { connAwait [] with initialized := true }, []) ∧
    Connection.handleMessage { connAwait [] with initialized := true }
        (mkNotification MethodInitialized) =
      (none, { connAwait [] with initialized := true }, []) :=
  c6_initialized_notification_idempotent (connAwait []) (mkNotification MethodInitialized)
    rfl rfl

/-- C9: an envelope with a non-empty method and no id is a Notification;
handling it produces no response envelope, in every session state and
whether or not the method is recognized. -/
theorem c9_notifications_never_answered (c : Connection) (m : Message)
    (hm : m.method ≠ "") (hid : m.id = none) :
    (c.handleMessage m).1 = none := by
  simp [Connection.handleMessage, hm, hid]

/-- C9 witness: an unrecognized notification on a concrete session. -/
theorem c9_witness :
    ((connReady [provMath]).handleMessage (mkNotification "bogus/unknown")).1 = none :=
  c9_notifications_never_answered (connReady [provMath]) (mkNotification "bogus/unknown")
    (by decide) rfl

/-- C10: an envelope whose method is empty is neither a Request nor a
Notification; handleMessage answers it with error code -32600 and message
"Invalid message format", echoing the envelope id (also when that id is
absent), leaves the session state unchanged, and the serve loop keeps
processing subsequent frames. -/
theorem c10_invalid_envelope_answered_not_dropped (c : Connection) (m : Message)
    (hm : m.method = "") :
    c.handleMessage m =
      (some (NewErrorResponse m.id ErrorCodeInvalidRequest "Invalid message format" none),
       c, []) ∧
    ∀ rest, c.serveLoop (Frame.ok m :: rest) =
      (NewErrorResponse m.id ErrorCodeInvalidRequest "Invalid message format" none
          :: (c.serveLoop rest).1,
       (c.serveLoop rest).2) := by
  have h1 : c.handleMessage m =
      (some (NewErrorResponse m.id ErrorCodeInvalidRequest "Invalid message format" none),
       c, []) := by
    simp [Connection.handleMessage, hm]
  refine ⟨h1, fun rest => ?_⟩
  rw [serveLoop_cons_ok, h1]
  rfl

/-- C10 witness: a concrete id-less, method-less envelope is answered with
an InvalidRequest error carrying no id, and the session stays usable. -/
theorem c10_witness :
    (connReady []).handleMessage
        { jsonrpc := "2.0", id := none, method := "", params := none } =
      (some (NewErrorResponse none ErrorCodeInvalidRequest "Invalid message format" none),
       connReady [], []) :=
  (c10_invalid_envelope_answered_not_dropped (connReady [])
    { jsonrpc := "2.0", id := none, method := "", params := none } rfl).1

/-- If no provider in the list advertises the requested name, the lookup
loop finds nothing. -/
lemma callToolLoop_skip_all (req : ToolCallRequest) (ps : List ToolProvider) :
    ∀ i, (∀ p ∈ ps, p.hasTool req.name = false) →
      (callToolLoop req ps i).1 = none := by
  induction ps with
  | nil => intro i _; rfl
  | cons p rest ih =>
    intro i h
    have hp := h p (by simp)
    have hrest : ∀ q ∈ rest, q.hasTool req.name = false := fun q hq => h q (by simp [hq])
    unfold ToolProvider.hasTool at hp
    cases hl : p.ListTools with
    | error e =>
      simp only [callToolLoop, hl]
      exact ih (i + 1) hrest
    | ok ts =>
      rw [hl] at hp
      simp only [callToolLoop, hl]
      split
      next hcond => exact absurd hcond (by simpa using hp)
      next hcond => exact ih (i + 1) hrest

/-- If the head provider advertises the requested name, the lookup loop
invokes its CallTool and stops, touching no later provider. -/
lemma callToolLoop_head_match (req : ToolCallRequest) (A : ToolProvider)
    (tail : List ToolProvider) (i : Nat) (hA : A.hasTool req.name = true) :
    callToolLoop req (A :: tail) i =
      (some (A.CallTool req), [ProviderEvent.listTools i, ProviderEvent.callTool i]) := by
  unfold ToolProvider.hasTool at hA
  cases hl : A.ListTools with
  | error e => rw [hl] at hA; simp at hA
  | ok ts =>
    rw [hl] at hA
    simp only [callToolLoop, hl]
    split
    next hcond => rfl
    next hcond => exact absurd hA hcond

/-- The first provider (in registration order) whose listing contains the
requested name is the one whose CallTool outcome the lookup loop returns. -/
lemma callToolLoop_first_match (req : ToolCallRequest) (A : ToolProvider)
    (post : List ToolProvider) :
    ∀ (pre : List ToolProvider) (i : Nat),
      (∀ q ∈ pre, q.hasTool req.name = false) →
      A.hasTool req.name = true →
      (callToolLoop req (pre ++ A :: post) i).1 = some (A.CallTool req) := by
  intro pre
  induction pre with
  | nil =>
    intro i _ hA
    rw [List.nil_append, callToolLoop_head_match req A post i hA]
  | cons q pre ih =>
    intro i h hA
    have hq := h q (by simp)
    have hpre : ∀ r ∈ pre, r.hasTool req.name = false := fun r hr => h r (by simp [hr])
    unfold ToolProvider.hasTool at hq
    rw [List.cons_append]
    cases hl : q.ListTools with
    | error e =>
      simp only [callToolLoop, hl]
      exact ih (i + 1) hpre hA
    | ok ts =>
      rw [hl] at hq
      simp only [callToolLoop, hl]
      split
      next hcond => exact absurd hcond (by simpa using hq)
      next hcond => exact ih (i + 1) hpre hA

/-- C2: on a Ready session, tools/call with a name no (successfully
listing) provider advertises is answered with MethodNotFound (-32601); if
the first provider in registration order whose listing contains the name
fails its CallTool, the call is answered with InternalError (-32603)
carrying the provider error text in error.data; in both cases the session
state is unchanged and the serve loop keeps processing later frames. -/
theorem c2_callTool_notFound_and_providerFailure (c : Connection) (m : Message)
    (req : ToolCallRequest)
    (hinit : c.initialized = true) (hm : m.method = MethodCallTool) (hid : m.id ≠ none)
    (hreq : decodeParams emptyToolCallRequest ParamsVal.asToolCall m.params = Except.ok req) :
    ((∀ p ∈ c.toolProviders, p.hasTool req.name = false) →
      (c.handleMessage m).1 =
        some (NewErrorResponse m.id ErrorCodeMethodNotFound
          ("Tool not found: " ++ req.name) none)) ∧
    (∀ pre A post e, c.toolProviders = pre ++ A :: post →
      (∀ q ∈ pre, q.hasTool req.name = false) →
      A.hasTool req.name = true →
      A.CallTool req = Except.error e →
      (c.handleMessage m).1 =
        some (NewErrorResponse m.id ErrorCodeInternalError "Tool execution failed" (some e))) ∧
    (c.handleMessage m).2.1 = c ∧
    (∀ rest, c.serveLoop (Frame.ok m :: rest) =
      ((c.handleMessage m).1.toList ++ (c.serveLoop rest).1, (c.serveLoop rest).2)) := by
  have hne : m.method ≠ "" := by rw [hm]; decide
  have hmsg : c.handleMessage m = (some (c.handleRequest m).1, c, (c.handleRequest m).2) := by
    simp [Connection.handleMessage, hne, hid]
  have hdis : c.handleRequest m = c.handleCallTool m := by
    simp [Connection.handleRequest, hm, MethodInitialize, MethodListTools, MethodCallTool]
  refine ⟨?_, ?_, ?_, ?_⟩
  · intro h
    have hloop := callToolLoop_skip_all req c.toolProviders 0 h
    rw [hmsg]
    simp only [Option.some.injEq]
    rw [hdis]
    simp [Connection.handleCallTool, hinit, hreq, hloop]
  · intro pre A post e hps hpre hA hfail
    have hloop : (callToolLoop req c.toolProviders 0).1 = some (A.CallTool req) := by
      rw [hps]; exact callToolLoop_first_match req A post pre 0 hpre hA
    rw [hfail] at hloop
    rw [hmsg]
    simp only [Option.some.injEq]
    rw [hdis]
    simp [Connection.handleCallTool, hinit, hreq, hloop]
  · rw [hmsg]
  · intro rest
    rw [serveLoop_cons_ok, hmsg]

/-- C2 witness: a Ready session whose single provider advertises "ping"
but fails the call answers with InternalError carrying the provider error
text, leaving the session unchanged. -/
theorem c2_witness :
    (((connReady [provPingFail]).handleMessage
        (mkRequest 3 MethodCallTool (some (paramsToolCall "ping")))).1 =
      some (NewErrorResponse (some 3) ErrorCodeInternalError "Tool execution failed"
        (some "ping exploded"))) ∧
    ((connReady [provPingFail]).handleMessage
        (mkRequest 3 MethodCallTool (some (paramsToolCall "ping")))).2.1 =
      connReady [provPingFail] :=
  ⟨((c2_callTool_notFound_and_providerFailure (connReady [provPingFail])
      (mkRequest 3 MethodCallTool (some (paramsToolCall "ping")))
      { name := "ping", arguments := none } rfl rfl (by decide) rfl).2.1)
      [] provPingFail [] "ping exploded" rfl (by simp) (by decide) rfl,
   (c2_callTool_notFound_and_providerFailure (connReady [provPingFail])
      (mkRequest 3 MethodCallTool (some (paramsToolCall "ping")))
      { name := "ping", arguments := none } rfl rfl (by decide) rfl).2.2.1⟩

/-- If every ListTools succeeds, the aggregation loop returns the ordered
concatenation of the listings and one listTools event per provider, in
registration order. -/
lemma listToolsLoop_all_ok (ps : List ToolProvider) :
    ∀ i, (∀ p ∈ ps, p.listOk = true) →
      listToolsLoop ps i =
        (Except.ok (ps.flatMap ToolProvider.okTools),
         (List.range' i ps.length).map ProviderEvent.listTools) := by
  induction ps with
  | nil => intro i _; rfl
  | cons p rest ih =>
    intro i h
    have hp := h p (by simp)
    have hrest : ∀ q ∈ rest, q.listOk = true := fun q hq => h q (by simp [hq])
    unfold ToolProvider.listOk at hp
    cases hl : p.ListTools with
    | error e => rw [hl] at hp; simp at hp
    | ok ts =>
      simp only [listToolsLoop, hl, ih (i + 1) hrest]
      simp [ToolProvider.okTools, hl, List.range'_succ]

/-- If some ListTools fails, the aggregation loop aborts with an error. -/
lemma listToolsLoop_fail (ps : List ToolProvider) :
    ∀ i, (∃ p ∈ ps, p.listOk = false) →
      ∃ e, (listToolsLoop ps i).1 = Except.error e := by
  induction ps with
  | nil => intro i h; simp at h
  | cons p rest ih =>
    intro i h
    cases hl : p.ListTools with
    | error e =>
      refine ⟨e, ?_⟩
      simp [listToolsLoop, hl]
    | ok ts =>
      have hrest : ∃ q ∈ rest, q.listOk = false := by
        rcases h with ⟨q, hq, hfq⟩
        rcases List.mem_cons.mp hq with rfl | hq2
        · unfold ToolProvider.listOk at hfq
          rw [hl] at hfq
          simp at hfq
        · exact ⟨q, hq2, hfq⟩
      obtain ⟨e, he⟩ := ih (i + 1) hrest
      refine ⟨e, ?_⟩
      simp [listToolsLoop, hl, he]

/-- C3: on a Ready session, tools/list calls ListTools on every registered
tool provider in registration order (one listTools event per provider, in
order) and returns the concatenation of the listings, whose length is the
sum of the individual listing lengths; if any single ListTools fails the
whole call is answered with InternalError (-32603) and the error response
carries no result, so no partial tool list is returned. -/
theorem c3_listTools_aggregates (c : Connection) (m : Message)
    (hinit : c.initialized = true) (hm : m.method = MethodListTools) (hid : m.id ≠ none) :
    ((∀ p ∈ c.toolProviders, p.listOk = true) →
      c.handleMessage m =
        (some (NewResponse m.id
            (ResultVal.toolList (c.toolProviders.flatMap ToolProvider.okTools))),
         c,
         (List.range c.toolProviders.length).map ProviderEvent.listTools) ∧
      (c.toolProviders.flatMap ToolProvider.okTools).length =
        (c.toolProviders.map (fun p => p.okTools.length)).sum) ∧
    ((∃ p ∈ c.toolProviders, p.listOk = false) →
      ∃ e, (c.handleMessage m).1 =
          some (NewErrorResponse m.id ErrorCodeInternalError "Failed to list tools" (some e)) ∧
        (NewErrorResponse m.id ErrorCodeInternalError "Failed to list tools" (some e)).result
          = none) := by
  have hne : m.method ≠ "" := by rw [hm]; decide
  have hmsg : c.handleMessage m = (some (c.handleRequest m).1, c, (c.handleRequest m).2) := by
    simp [Connection.handleMessage, hne, hid]
  have hdis : c.handleRequest m = c.handleListTools m := by
    simp [Connection.handleRequest, hm, MethodInitialize, MethodListTools]
  constructor
  · intro h
    have hloop := listToolsLoop_all_ok c.toolProviders 0 h
    constructor
    · rw [hmsg, hdis]
      simp [Connection.handleListTools, hinit, hloop, List.range_eq_range']
    · rw [List.length_flatMap]
      rfl
  · intro h
    obtain ⟨e, he⟩ := listToolsLoop_fail c.toolProviders 0 h
    refine ⟨e, ?_, rfl⟩
    rw [hmsg, hdis]
    simp [Connection.handleListTools, hinit, he]

/-- C3 witness: two providers with successful listings are aggregated in
order; the length equation holds. -/
theorem c3_witness :
    (connReady [provMath, provPingFail]).handleMessage (mkRequest 7 MethodListTools none) =
      (some (NewResponse (some 7)
          (ResultVal.toolList ([provMath, provPingFail].flatMap ToolProvider.okTools))),
       connReady [provMath, provPingFail],
       (List.range 2).map ProviderEvent.listTools) ∧
    ([provMath, provPingFail].flatMap ToolProvider.okTools).length =
      ([provMath, provPingFail].map (fun p => p.okTools.length)).sum :=
  (c3_listTools_aggregates (connReady [provMath, provPingFail])
    (mkRequest 7 MethodListTools none) rfl rfl (by decide)).1 (by decide)

/-- C5: in a registry whose first registered tool provider A advertises
the requested name, and some later provider B also advertises it, a
Ready-state tools/call invokes only A (the trace holds exactly the
ListTools and CallTool events of index 0, so B is never invoked) and the
response is built from the CallTool outcome of A. -/
theorem c5_first_registered_provider_wins (c : Connection) (A B : ToolProvider)
    (rest : List ToolProvider) (m : Message) (req : ToolCallRequest)
    (hinit : c.initialized = true)
    (hps : c.toolProviders = A :: B :: rest)
    (hm : m.method = MethodCallTool) (hid : m.id ≠ none)
    (hreq : decodeParams emptyToolCallRequest ParamsVal.asToolCall m.params = Except.ok req)
    (hA : A.hasTool req.name = true) (hB : B.hasTool req.name = true) :
    (c.handleMessage m).2.2 = [ProviderEvent.listTools 0, ProviderEvent.callTool 0] ∧
    (c.handleMessage m).1 =
      some (match A.CallTool req with
        | Except.error e =>
            NewErrorResponse m.id ErrorCodeInternalError "Tool execution failed" (some e)
        | Except.ok resp => NewResponse m.id (ResultVal.toolCall resp)) := by
  have hne : m.method ≠ "" := by rw [hm]; decide
  have hmsg : c.handleMessage m = (some (c.handleRequest m).1, c, (c.handleRequest m).2) := by
    simp [Connection.handleMessage, hne, hid]
  have hdis : c.handleRequest m = c.handleCallTool m := by
    simp [Connection.handleRequest, hm, MethodInitialize, MethodListTools, MethodCallTool]
  have hloop : callToolLoop req c.toolProviders 0 =
      (some (A.CallTool req), [ProviderEvent.listTools 0, ProviderEvent.callTool 0]) := by
    rw [hps]
    exact callToolLoop_head_match req A (B :: rest) 0 hA
  constructor
  · rw [hmsg, hdis]
    cases hc : A.CallTool req with
    | error e => simp [Connection.handleCallTool, hinit, hreq, hloop, hc]
    | ok resp => simp [Connection.handleCallTool, hinit, hreq, hloop, hc]
  · rw [hmsg, hdis]
    cases hc : A.CallTool req with
    | error e => simp [Connection.handleCallTool, hinit, hreq, hloop, hc]
    | ok resp => simp [Connection.handleCallTool, hinit, hreq, hloop, hc]

/-- A first provider advertising "ping" with a distinguishable answer. -/
def provPingA : ToolProvider :=
  { ListTools := Except.ok [toolPing],
    CallTool := fun _ =>
      Except.ok { content := [{ type := "text", text := "pong from A", data := "" }],
                  isError := false } }

/-- C5 witness: with providers A then B both advertising "ping", the call
invokes only provider 0 (A) and returns the result of A. -/
theorem c5_witness :
    ((connReady [provPingA, provPingB]).handleMessage
        (mkRequest 9 MethodCallTool (some (paramsToolCall "ping")))).2.2 =
      [ProviderEvent.listTools 0, ProviderEvent.callTool 0] ∧
    ((connReady [provPingA, provPingB]).handleMessage
        (mkRequest 9 MethodCallTool (some (paramsToolCall "ping")))).1 =
      some (NewResponse (some 9) (ResultVal.toolCall
        { content := [{ type := "text", text := "pong from A", data := "" }],
          isError := false })) :=
  c5_first_registered_provider_wins (connReady [provPingA, provPingB]) provPingA provPingB []
    (mkRequest 9 MethodCallTool (some (paramsToolCall "ping")))
    { name := "ping", arguments := none } rfl rfl rfl (by decide) rfl (by decide) (by decide)

/-- C4 (amended): an initialize Request whose params are absent or
unmarshal into an InitializeRequest is answered, in every session state,
with the fixed InitializeResult whose protocolVersion is "2024-11-05" and
whose serverInfo.name is non-empty, with no provider calls and no state
change. (The unamended claim fails when params do not unmarshal: see the
counterexample, where InvalidParams is answered instead.) -/
theorem c4_initialize_returns_fixed_result (c : Connection) (m : Message)
    (hm : m.method = MethodInitialize) (hid : m.id ≠ none)
    (hp : ∃ req,
      decodeParams emptyInitializeRequest ParamsVal.asInitialize m.params = Except.ok req) :
    c.handleMessage m =
      (some (NewResponse m.id (ResultVal.initializeResult serverInitializeResponse)), c, []) ∧
    serverInitializeResponse.protocolVersion = ProtocolVersion ∧
    serverInitializeResponse.serverInfo.name ≠ "" := by
  obtain ⟨req, hreq⟩ := hp
  have hne : m.method ≠ "" := by rw [hm]; decide
  refine ⟨?_, rfl, by decide⟩
  simp [Connection.handleMessage, hne, hid, Connection.handleRequest, hm,
    MethodInitialize, Connection.handleInitialize, hreq]

/-- C4 witness: initialize with absent params on a fresh session. -/
theorem c4_witness :
    (connAwait []).handleMessage (mkRequest 1 MethodInitialize none) =
      (some (NewResponse (some 1) (ResultVal.initializeResult serverInitializeResponse)),
       connAwait [], []) ∧
    serverInitializeResponse.protocolVersion = ProtocolVersion ∧
    serverInitializeResponse.serverInfo.name ≠ "" :=
  c4_initialize_returns_fixed_result (connAwait []) (mkRequest 1 MethodInitialize none)
    rfl (by decide) ⟨emptyInitializeRequest, rfl⟩

/-- C4 counterexample: an initialize Request whose params value is the
JSON number 5 (which json.Unmarshal rejects for the InitializeRequest
struct) is answered with an InvalidParams (-32602) error whose result
field is empty — not with an InitializeResult, refuting the claim for
that params value. -/
theorem c4_counterexample :
    ((connAwait []).handleMessage (mkRequest 1 MethodInitialize (some paramsNonObject))).1 =
      some (NewErrorResponse (some 1) ErrorCodeInvalidParams "Invalid initialize parameters"
        (some "json: cannot unmarshal number into Go value of type mcp.InitializeRequest")) ∧
    (NewErrorResponse (some 1) ErrorCodeInvalidParams "Invalid initialize parameters"
        (some "json: cannot unmarshal number into Go value of type mcp.InitializeRequest")).result
      = none :=
  ⟨rfl, rfl⟩

/-- C8: the first frame that fails to decode terminates the session: the
loop output over any prefix of decodable frames followed by a failing
frame equals the output over the prefix alone — the failing frame gets no
response, no later frame is processed or answered, and the prefix is
handled normally. (The connection is closed by the deferred close in both
cases, whether the loop ends by decode failure or by end of input.) -/
theorem c8_decode_failure_fatal (c : Connection) (msgs : List Message) (post : List Frame) :
    c.serveLoop (msgs.map Frame.ok ++ Frame.bad :: post) = c.serveLoop (msgs.map Frame.ok) := by
  induction msgs generalizing c with
  | nil => rfl
  | cons m rest ih =>
    simp only [List.map_cons, List.cons_append, serveLoop_cons_ok]
    rw [ih]

/-- Every response produced by the request dispatcher echoes the id of the
request envelope (every handler branch passes message.ID through). -/
lemma handleRequest_id (c : Connection) (m : Message) :
    ((c.handleRequest m).1).id = m.id := by
  unfold Connection.handleRequest Connection.handleInitialize Connection.handleListTools
    Connection.handleCallTool Connection.handleListResources Connection.handleReadResource
  repeat' split
  all_goals rfl

/-- Whether handling an envelope produces a response: everything except a
notification-shaped envelope (non-empty method, absent id) is answered. -/
def Message.answered (m : Message) : Bool := !((m.method != "") && m.id.isNone)

/-- The ids of the responses (none or one) produced for a single envelope:
one response echoing the envelope id exactly when the envelope is not
notification-shaped. -/
lemma handleMessage_resp_ids (c : Connection) (m : Message) :
    ((c.handleMessage m).1).toList.map Response.id =
      if m.answered then [m.id] else [] := by
  unfold Connection.handleMessage Message.answered
  by_cases h1 : m.method = ""
  · simp [h1, NewErrorResponse]
  · by_cases h2 : m.id = none
    · simp [h1, h2]
    · simp [h1, h2, handleRequest_id, Option.isSome_iff_ne_none]

/-- C7 (amended): processing on one connection is strictly sequential (the
serve loop is a fold over the frames in arrival order), and the i-th
response written answers the i-th non-Notification envelope received,
echoing its id; Notifications produce no response and preserve the order.
(The unamended claim — that every response answers a Request — fails on
invalid envelopes, which are also answered: see the counterexample.) -/
theorem c7_responses_in_arrival_order (c : Connection) (msgs : List Message) :
    ((c.serveLoop (msgs.map Frame.ok)).1).map Response.id =
      (msgs.filter Message.answered).map Message.id := by
  induction msgs generalizing c with
  | nil => rfl
  | cons m rest ih =>
    simp only [List.map_cons, serveLoop_cons_ok, List.filter_cons]
    rw [List.map_append, handleMessage_resp_ids, ih]
    by_cases ha : m.answered
    · simp [ha]
    · simp [ha]

/-- C7 counterexample: a stream holding an invalid envelope (id 5, no
method) followed by one Request (id 1) yields two responses, the first
answering the invalid envelope — so the i-th response does not answer the
i-th Request (the stream holds exactly one Request, with id 1, yet the
first of the two responses echoes id 5). -/
theorem c7_counterexample :
    ((((connReady []).serveLoop
        [Frame.ok { jsonrpc := "2.0", id := some 5, method := "", params := none },
         Frame.ok (mkRequest 1 MethodListTools none)]).1).map Response.id
      = [some 5, some 1]) ∧
    (([{ jsonrpc := "2.0", id := some 5, method := "", params := none },
       mkRequest 1 MethodListTools none].filter
        (fun m => (m.method != "") && !m.id.isNone)).map Message.id = [some 1]) :=
  ⟨rfl, rfl⟩
